import Mathlib

/-!
Shallow embedding of the zfs-arch-installer sources (src/main.py,
src/utils/zfs_manager.py, src/utils/installer.py, src/utils/boot_manager.py).
External commands are modelled as argument vectors (`List String`); a process
invocation additionally carries its optional piped standard input.  Fallible
code is modelled with `Option`/`Except`.
-/

namespace ZFSInstaller

/-- Mutable configuration of `ZFSManager.__init__` / answers of `setup_pool`. -/
structure ZFSConfig where
  pool_name : String
  pool_type : String
  compression : String
  deduplication : Bool
  encryption : Bool
  encryption_passphrase : String
  ashift : Nat
  autotrim : Bool
  swap_size : Nat
deriving DecidableEq, Repr

/-- The answers the operator gives to the prompts of `ZFSManager.setup_pool`.
Prompt-level validators (pool name nonempty, passphrase length at least 8,
swap size within 1..128) are enforced by the prompt library by re-asking, so
the answers recorded here are the accepted ones. -/
structure PoolAnswers where
  pool_name : String
  pool_type : String
  compression : String
  deduplication : Bool
  encryption : Bool
  passphrase : String
  confirm_passphrase : String
  advanced : Bool
  ashift_answer : Nat
  autotrim_answer : Bool
  use_swap : Bool
  swap_size_answer : Nat
deriving DecidableEq, Repr

/-- `ZFSManager.setup_pool` (zfs_manager.py 26-138): records the configuration;
when encryption is chosen and the confirmation differs from the passphrase the
method raises `Exception("Passphrases do not match")` before any further
prompt or command.  The method itself runs no external command. -/
def setup_pool (a : PoolAnswers) : Except String ZFSConfig :=
  if a.encryption = true ∧ a.confirm_passphrase ≠ a.passphrase then
    .error "Passphrases do not match"
  else
    .ok { pool_name := a.pool_name,
          pool_type := a.pool_type,
          compression := a.compression,
          deduplication := a.deduplication,
          encryption := a.encryption,
          encryption_passphrase := if a.encryption then a.passphrase else "",
          ashift := if a.advanced then a.ashift_answer else 12,
          autotrim := if a.advanced then a.autotrim_answer else true,
          swap_size := if a.use_swap then a.swap_size_answer else 0 }

/-- Python `s.startswith(p)` on our embedded strings. -/
def starts_with (s p : String) : Bool :=
  p.data.isPrefixOf s.data

/-- Options part of the `zpool create` argument vector built by
`ZFSManager.create_pool` (zfs_manager.py 148-184), up to and including the
pool name. -/
def create_pool_opts (m : ZFSConfig) : List String :=
  ["zpool", "create", "-f"]
  ++ ["-o", "ashift=" ++ toString m.ashift]
  ++ (if m.autotrim then ["-o", "autotrim=on"] else [])
  ++ ["-O", "compression=" ++ m.compression,
      "-O", "normalization=formD",
      "-O", "acltype=posixacl",
      "-O", "xattr=sa",
      "-O", "relatime=on",
      "-O", "canmount=off"]
  ++ (if m.deduplication then ["-O", "dedup=on"] else [])
  ++ (if m.encryption then
        ["-O", "encryption=aes-256-gcm",
         "-O", "keylocation=prompt",
         "-O", "keyformat=passphrase"]
      else [])
  ++ ["-O", "mountpoint=none"]
  ++ [m.pool_name]

/-- Vdev tail of the `zpool create` command (zfs_manager.py 186-194).
`none` models the `IndexError` raised by `zfs_partitions[0]` on an empty
list in the first branch. -/
def create_pool_vdevs (pool_type : String) (zfs_partitions : List String) :
    Option (List String) :=
  if pool_type = "single" ∨ zfs_partitions.length = 1 then
    match zfs_partitions with
    | [] => none
    | p :: _ => some [p]
  else if pool_type = "mirror" then
    some ("mirror" :: zfs_partitions)
  else if starts_with pool_type "raidz" then
    some (pool_type :: zfs_partitions)
  else
    some []

/-- Full argument vector built by `ZFSManager.create_pool`. -/
def create_pool_cmd (m : ZFSConfig) (zfs_partitions : List String) :
    Option (List String) :=
  (create_pool_vdevs m.pool_type zfs_partitions).map
    (fun v => create_pool_opts m ++ v)

/-- An external process invocation: argument vector plus optional piped
standard input. -/
structure ProcCall where
  argv : List String
  stdin_input : Option String
deriving DecidableEq, Repr

/-- The process invocation performed by `ZFSManager.create_pool`
(zfs_manager.py 196-212): with encryption the passphrase plus a newline is
written to the subprocess's piped standard input, otherwise no input is
piped. -/
def create_pool_call (m : ZFSConfig) (zfs_partitions : List String) :
    Option ProcCall :=
  (create_pool_cmd m zfs_partitions).map (fun cmd =>
    { argv := cmd,
      stdin_input :=
        if m.encryption then some (m.encryption_passphrase ++ "\n") else none })

/-- Argument vector built by `ZFSManager.import_pool` (zfs_manager.py 351-354). -/
def import_pool_cmd (m : ZFSConfig) (mount : Bool) : List String :=
  (["zpool", "import", "-d", "/dev/disk/by-id", "-f"]
    ++ (if mount then [] else ["-N"]))
  ++ [m.pool_name]

/-- The process invocation performed by `ZFSManager.import_pool`
(zfs_manager.py 356-370). -/
def import_pool_call (m : ZFSConfig) (mount : Bool) : ProcCall :=
  { argv := import_pool_cmd m mount,
    stdin_input :=
      if m.encryption then some (m.encryption_passphrase ++ "\n") else none }

/-- The argument of `create_pool` may be a single partition string or a list
of partitions (zfs_manager.py 144-146). -/
inductive PartsArg where
  | str (s : String)
  | list (l : List String)
deriving DecidableEq, Repr

/-- `if isinstance(zfs_partitions, str): zfs_partitions = [zfs_partitions]`. -/
def normalize_partitions : PartsArg → List String
  | .str s => [s]
  | .list l => l

/-- `ZFSManager.create_pool` at its public interface (string-or-list input). -/
def create_pool_cmd_arg (m : ZFSConfig) (a : PartsArg) : Option (List String) :=
  create_pool_cmd m (normalize_partitions a)

/-- The external commands run by the pool-configuration step of the workflow:
`setup_pool` itself runs none; `create_pool` runs only after `setup_pool`
returned normally (main.py 48-49, the raised exception skips the rest of the
`try` block). -/
def pool_stage_calls (a : PoolAnswers) (zfs_partitions : List String) :
    List ProcCall :=
  match setup_pool a with
  | .error _ => []
  | .ok m =>
    match create_pool_call m zfs_partitions with
    | none => []
    | some c => [c]

/-- `ZFSManager._create_dataset` (zfs_manager.py 267-281): the built
`zfs create -p` argument vector. -/
def create_dataset_cmd (name : String) (props : List String) : List String :=
  ["zfs", "create", "-p"] ++ props.flatMap (fun p => ["-o", p]) ++ [name]

/-- `ZFSManager._create_swap_zvol` (zfs_manager.py 283-304): the swap volume
creation command followed by the `mkswap` formatting command. -/
def create_swap_zvol_cmds (pool_name : String) (swap_size : Nat) :
    List (List String) :=
  [["zfs", "create",
    "-V", toString (swap_size * 1024 * 1024 * 1024),
    "-b", "4K",
    "-o", "compression=zle",
    "-o", "logbias=throughput",
    "-o", "sync=always",
    "-o", "primarycache=metadata",
    "-o", "com.sun:auto-snapshot=false",
    pool_name ++ "/swap"],
   ["mkswap", "-f", "/dev/zvol/" ++ pool_name ++ "/swap"]]

/-- The command trace of `ZFSManager.create_datasets` (zfs_manager.py
220-255), in source order, ending with the `zpool set bootfs=...` command. -/
def create_datasets_cmds (pool_name : String) (swap_size : Nat) :
    List (List String) :=
  [create_dataset_cmd (pool_name ++ "/ROOT") ["canmount=off", "mountpoint=none"],
   create_dataset_cmd (pool_name ++ "/ROOT/arch")
     ["canmount=noauto", "mountpoint=/", "com.sun:auto-snapshot=true"],
   create_dataset_cmd (pool_name ++ "/home")
     ["mountpoint=/home", "com.sun:auto-snapshot=true"],
   create_dataset_cmd (pool_name ++ "/var")
     ["mountpoint=/var", "com.sun:auto-snapshot=false"],
   create_dataset_cmd (pool_name ++ "/var/log") ["mountpoint=/var/log"],
   create_dataset_cmd (pool_name ++ "/var/cache") ["mountpoint=/var/cache"]]
  ++ (if 0 < swap_size then create_swap_zvol_cmds pool_name swap_size else [])
  ++ [["zpool", "set", "bootfs=" ++ pool_name ++ "/ROOT/arch", pool_name]]

/-- The `zpool set bootfs` command of `create_datasets` (zfs_manager.py 255). -/
def bootfs_cmd (pool_name : String) : List String :=
  ["zpool", "set", "bootfs=" ++ pool_name ++ "/ROOT/arch", pool_name]

/-- Last element of an argument vector. -/
def last_arg : List String → Option String
  | [] => none
  | [x] => some x
  | _ :: x :: xs => last_arg (x :: xs)

/-- The targets of the `zfs create` commands in a command trace, in order. -/
def zfs_create_targets (cmds : List (List String)) : List String :=
  cmds.filterMap (fun c =>
    match c with
    | "zfs" :: "create" :: rest => last_arg rest
    | _ => none)

/-- Dataset mount order of `Installer.mount_filesystems` (installer.py 31-54):
root first, then home, var, var/log, var/cache. -/
def mount_dataset_order (pool_name root_ds : String) : List String :=
  [root_ds,
   pool_name ++ "/home",
   pool_name ++ "/var",
   pool_name ++ "/var/log",
   pool_name ++ "/var/cache"]

/-- The `datasets` list of `Installer._unmount_filesystems` (installer.py
304-311), exactly as written in the source (`var/cache` appears twice, at the
first and third position). -/
def unmount_dataset_targets (pool_name root_ds : String) : List String :=
  [pool_name ++ "/var/cache",
   pool_name ++ "/var/log",
   pool_name ++ "/var/cache",
   pool_name ++ "/var",
   pool_name ++ "/home",
   root_ds]

/-- `BootManager.unmount_boot` (boot_manager.py 300-316): the unmount commands
attempted, given which commands fail.  Both `umount` calls run with
`check=True` inside a single `try`: a failing EFI unmount raises, the
exception is caught, a warning is printed and the method returns `False`
without attempting the separate boot partition. -/
def unmount_boot_attempts (root_mount : String) (separate_boot : Bool)
    (fails : List String → Bool) : List (List String) :=
  let efi_cmd := ["umount", root_mount ++ "/boot/efi"]
  if fails efi_cmd then
    [efi_cmd]
  else
    efi_cmd :: (if separate_boot then [["umount", root_mount ++ "/boot"]] else [])

/-- `Installer._unmount_filesystems` (installer.py 294-330): boot partitions
first, then every dataset unmount with `check=False` (a failure can not raise,
so all six are always attempted), then the optional pool export when the
operator confirms it. -/
def unmount_filesystems_attempts (root_mount pool_name root_ds : String)
    (separate_boot export_answer : Bool) (fails : List String → Bool) :
    List (List String) :=
  unmount_boot_attempts root_mount separate_boot fails
  ++ (unmount_dataset_targets pool_name root_ds).map
      (fun d => ["zfs", "unmount", d])
  ++ (if export_answer then [["zpool", "export", pool_name]] else [])

/-- Python `list.index(x)` (first index of `x`; only used when `x` occurs). -/
def list_index (x : String) : List String → Nat
  | [] => 0
  | h :: t => if h = x then 0 else list_index x t + 1

/-- Python `list.insert(idx, x)`: insert before position `idx`, appending when
`idx` is past the end. -/
def list_insert (x : String) : Nat → List String → List String
  | _, [] => [x]
  | 0, l => x :: l
  | n + 1, h :: t => h :: list_insert x n t

/-- The HOOKS patch of `BootManager.configure_initramfs` (boot_manager.py
253-261): insert `zfs` before `filesystems` when absent, otherwise append it
near the end; a list already containing `zfs` is left unchanged. -/
def add_zfs_hook (hooks_list : List String) : List String :=
  if "zfs" ∈ hooks_list then hooks_list
  else if "filesystems" ∈ hooks_list then
    list_insert "zfs" (list_index "filesystems" hooks_list) hooks_list
  else
    hooks_list ++ ["zfs"]

/-- `if hook not in hooks_list: hooks_list.append(hook)`. -/
def add_if_missing (l : List String) (hook : String) : List String :=
  if hook ∈ l then l else l ++ [hook]

/-- The ensure-other-hooks loop of `configure_initramfs` (boot_manager.py
263-267): only under the systemd-boot bootloader, the `sd-` prefixed hooks of
the fixed list are appended when missing. -/
def ensure_extra_hooks (bootloader : String) (hooks_list : List String) :
    List String :=
  ["keyboard", "keymap", "encrypt", "sd-vconsole", "sd-encrypt"].foldl
    (fun acc hook =>
      if bootloader = "systemd-boot" ∧ starts_with hook "sd-" then
        add_if_missing acc hook
      else acc)
    hooks_list

/-- The complete HOOKS-line transformation of `configure_initramfs`
(boot_manager.py 248-271) as a function on the parsed hook list. -/
def patch_hooks (bootloader : String) (hooks_list : List String) : List String :=
  ensure_extra_hooks bootloader (add_zfs_hook hooks_list)

/-- The stages of `main`'s installation workflow (main.py 42-68), in order. -/
inductive Stage where
  | selectDisk
  | createPartitions
  | setupPoolStage
  | createPoolStage
  | createDatasetsStage
  | setupBootPartitions
  | mountFilesystemsStage
  | installBaseSystem
  | configureSystemStage
  | installBootloaderStage
  | finalizeInstallation
deriving DecidableEq, Repr

/-- The ordered stage list of main.py 42-68. -/
def main_stages : List Stage :=
  [.selectDisk, .createPartitions, .setupPoolStage, .createPoolStage,
   .createDatasetsStage, .setupBootPartitions, .mountFilesystemsStage,
   .installBaseSystem, .configureSystemStage, .installBootloaderStage,
   .finalizeInstallation]

/-- Observable top-level actions of `main` (main.py 42-83).  `invokeCleanup`
stands for a call to `Installer.cleanup` (installer.py 332-345). -/
inductive MainAction where
  | runStage (s : Stage)
  | invokeCleanup
  | printError
  | exitCode (n : Nat)
  | printSuccess
deriving DecidableEq, Repr

/-- Sequential execution of the `try` block: each stage runs after the
previous one returned; a raising stage ends the block (second component
`false`). -/
def run_stages (fails : Stage → Bool) : List Stage → List MainAction × Bool
  | [] => ([], true)
  | s :: rest =>
    if fails s then ([.runStage s], false)
    else
      let r := run_stages fails rest
      (.runStage s :: r.1, r.2)

/-- `main` (main.py 42-83): on success the completion banner is printed; on
any exception raised by a stage, the `except Exception` handler prints the
error and calls `sys.exit(1)` — those are its only actions. -/
def main_run (fails : Stage → Bool) : List MainAction :=
  let r := run_stages fails main_stages
  if r.2 then r.1 ++ [.printSuccess]
  else r.1 ++ [.printError, .exitCode 1]

/-- A concrete accepted answer set whose confirmation differs from the
passphrase. -/
def mismatch_answers : PoolAnswers :=
  { pool_name := "rpool", pool_type := "single", compression := "lz4",
    deduplication := false, encryption := true,
    passphrase := "correct horse", confirm_passphrase := "correct h0rse",
    advanced := false, ashift_answer := 12, autotrim_answer := true,
    use_swap := false, swap_size_answer := 0 }

/-- A concrete encrypted configuration whose (valid, length at least 8)
passphrase happens to equal one of the fixed option strings of the
pool-creation command. -/
def cfg_leaky : ZFSConfig :=
  { pool_name := "rpool", pool_type := "single", compression := "lz4",
    deduplication := false, encryption := true,
    encryption_passphrase := "keyformat=passphrase",
    ashift := 12, autotrim := true, swap_size := 0 }

/-- A concrete encrypted configuration with an ordinary passphrase. -/
def cfg_enc : ZFSConfig :=
  { pool_name := "rpool", pool_type := "single", compression := "lz4",
    deduplication := false, encryption := true,
    encryption_passphrase := "hunter2hunter2",
    ashift := 12, autotrim := true, swap_size := 0 }

/-- A concrete configuration with mirror topology. -/
def cfg_mirror : ZFSConfig :=
  { pool_name := "rpool", pool_type := "mirror", compression := "lz4",
    deduplication := false, encryption := false, encryption_passphrase := "",
    ashift := 12, autotrim := true, swap_size := 0 }

/-- A failure oracle under which exactly the EFI unmount command fails. -/
def fail_efi : List String → Bool :=
  fun c => c == ["umount", "/mnt/boot/efi"]

theorem invokeCleanup_not_in_run_stages (fails : Stage → Bool) :
    ∀ l : List Stage, MainAction.invokeCleanup ∉ (run_stages fails l).1 := by
  intro l
  induction l with
  | nil => simp [run_stages]
  | cons s rest ih =>
    by_cases h : fails s <;> simp [run_stages, h, ih]

/-- C1: the claim says `main`'s top-level exception handler invokes the
cleanup protocol (`Installer.cleanup`) for fatal errors at or after pool
creation.  In the source the handler only prints the error and exits with
status 1: no execution of `main` — whichever stage fails, if any — ever
performs a cleanup invocation.  This theorem evaluates the embedded
orchestrator and shows the cleanup action is absent from every trace. -/
theorem main_handler_never_invokes_cleanup (fails : Stage → Bool) :
    MainAction.invokeCleanup ∉ main_run fails := by
  have h := invokeCleanup_not_in_run_stages fails main_stages
  by_cases hb : (run_stages fails main_stages).2 <;>
    simp [main_run, hb, h]

/-- C2: when encryption is enabled and the confirmation value differs from
the passphrase, `setup_pool` raises the validation error "Passphrases do not
match", and the pool-configuration step executes no external command (in
particular no pool-creation command). -/
theorem setup_pool_mismatch_validation (a : PoolAnswers) (parts : List String)
    (henc : a.encryption = true) (hne : a.confirm_passphrase ≠ a.passphrase) :
    setup_pool a = .error "Passphrases do not match" ∧
    pool_stage_calls a parts = [] := by
  have h : setup_pool a = .error "Passphrases do not match" := by
    simp [setup_pool, henc, hne]
  exact ⟨h, by simp [pool_stage_calls, h]⟩

/-- C2 witness: the theorem applied to a concrete mismatching answer set. -/
theorem setup_pool_mismatch_validation_witness :
    setup_pool mismatch_answers = .error "Passphrases do not match" ∧
    pool_stage_calls mismatch_answers ["/dev/sda2"] = [] :=
  setup_pool_mismatch_validation mismatch_answers ["/dev/sda2"] rfl (by decide)

/-- C7: `create_datasets` issues its `zfs create` commands in exactly the
order parent container (pool/ROOT), root (pool/ROOT/arch), home, var,
var/log, var/cache, then the swap volume if and only if `swap_size > 0`;
and the `zpool set bootfs` command is issued only after the root dataset's
creation command. -/
theorem create_datasets_order (pool : String) (s : Nat) :
    zfs_create_targets (create_datasets_cmds pool s) =
      [pool ++ "/ROOT", pool ++ "/ROOT/arch", pool ++ "/home", pool ++ "/var",
       pool ++ "/var/log", pool ++ "/var/cache"]
      ++ (if 0 < s then [pool ++ "/swap"] else []) ∧
    ∃ l1 l2, create_datasets_cmds pool s = l1 ++ bootfs_cmd pool :: l2 ∧
      create_dataset_cmd (pool ++ "/ROOT/arch")
        ["canmount=noauto", "mountpoint=/", "com.sun:auto-snapshot=true"] ∈ l1 := by
  constructor
  · by_cases h : 0 < s <;>
      simp [create_datasets_cmds, zfs_create_targets, create_dataset_cmd,
        create_swap_zvol_cmds, last_arg, h]
  · refine ⟨[create_dataset_cmd (pool ++ "/ROOT") ["canmount=off", "mountpoint=none"],
      create_dataset_cmd (pool ++ "/ROOT/arch")
        ["canmount=noauto", "mountpoint=/", "com.sun:auto-snapshot=true"],
      create_dataset_cmd (pool ++ "/home")
        ["mountpoint=/home", "com.sun:auto-snapshot=true"],
      create_dataset_cmd (pool ++ "/var")
        ["mountpoint=/var", "com.sun:auto-snapshot=false"],
      create_dataset_cmd (pool ++ "/var/log") ["mountpoint=/var/log"],
      create_dataset_cmd (pool ++ "/var/cache") ["mountpoint=/var/cache"]]
      ++ (if 0 < s then create_swap_zvol_cmds pool s else []), [], ?_, ?_⟩
    · simp [create_datasets_cmds, bootfs_cmd]
    · simp

/-- C9: for every swap size N in the accepted range 1..128, the swap-volume
creation command requests exactly N × 1073741824 bytes. -/
theorem swap_zvol_size_exact (pool : String) (n : Nat)
    (h1 : 1 ≤ n) (h2 : n ≤ 128) :
    create_swap_zvol_cmds pool n =
      [["zfs", "create", "-V", toString (n * 1073741824), "-b", "4K",
        "-o", "compression=zle", "-o", "logbias=throughput", "-o", "sync=always",
        "-o", "primarycache=metadata", "-o", "com.sun:auto-snapshot=false",
        pool ++ "/swap"],
       ["mkswap", "-f", "/dev/zvol/" ++ pool ++ "/swap"]] := by
  have h : n * 1024 * 1024 * 1024 = n * 1073741824 := by ring
  simp [create_swap_zvol_cmds, h]

/-- C9 witness: 8 GiB requests exactly 8589934592 bytes. -/
theorem swap_zvol_size_exact_witness :
    create_swap_zvol_cmds "rpool" 8 =
      [["zfs", "create", "-V", "8589934592", "-b", "4K",
        "-o", "compression=zle", "-o", "logbias=throughput", "-o", "sync=always",
        "-o", "primarycache=metadata", "-o", "com.sun:auto-snapshot=false",
        "rpool/swap"],
       ["mkswap", "-f", "/dev/zvol/rpool/swap"]] := by
  have h := swap_zvol_size_exact "rpool" 8 (by decide) (by decide)
  have e : toString (8 * 1073741824 : Nat) = "8589934592" := by decide
  rw [e] at h
  simpa using h

/-- C10: `create_pool` accepts a single partition string or a list: a string
input behaves exactly as the one-element list, and any one-element partition
list yields the single-device layout regardless of the configured topology
keyword. -/
theorem create_pool_single_partition_interface (m : ZFSConfig) (s : String) :
    create_pool_cmd_arg m (.str s) = create_pool_cmd_arg m (.list [s]) ∧
    create_pool_cmd m [s] = some (create_pool_opts m ++ [s]) := by
  refine ⟨rfl, ?_⟩
  simp [create_pool_cmd, create_pool_vdevs]

/-- C3 counterexample: the claim quantifies over every encrypted
configuration, but the passphrase is an arbitrary accepted secret of length
at least 8, so it can coincide with an argument string: with passphrase
"keyformat=passphrase" the pool-creation argument vector contains the
passphrase as an element. -/
theorem create_pool_cmd_can_contain_passphrase :
    cfg_leaky.encryption = true ∧
    create_pool_cmd cfg_leaky ["/dev/sda2"] =
      some (create_pool_opts cfg_leaky ++ ["/dev/sda2"]) ∧
    cfg_leaky.encryption_passphrase ∈
      create_pool_opts cfg_leaky ++ ["/dev/sda2"] := by
  refine ⟨rfl, ?_, ?_⟩ <;> decide

/-- C3 amended: the pool-creation and pool-import argument vectors are built
independently of the passphrase — replacing the passphrase by any other value
leaves both vectors unchanged — and when encryption is enabled the passphrase
is delivered to the subprocess only through its piped standard input, as the
passphrase followed by a newline. -/
theorem passphrase_only_on_stdin (m : ZFSConfig) (p : String)
    (parts : List String) (mount : Bool) :
    create_pool_cmd { m with encryption_passphrase := p } parts =
      create_pool_cmd m parts ∧
    import_pool_cmd { m with encryption_passphrase := p } mount =
      import_pool_cmd m mount ∧
    (m.encryption = true →
      (import_pool_call m mount).stdin_input =
        some (m.encryption_passphrase ++ "\n")) ∧
    (m.encryption = true → ∀ c ∈ create_pool_call m parts,
      c.stdin_input = some (m.encryption_passphrase ++ "\n")) := by
  refine ⟨rfl, rfl, ?_, ?_⟩
  · intro h
    simp [import_pool_call, h]
  · intro h c hc
    cases hco : create_pool_cmd m parts with
    | none => simp [create_pool_call, hco] at hc
    | some cmd =>
      simp [create_pool_call, hco] at hc
      subst hc
      simp [h]

/-- C3 witness: the amended theorem applied to a concrete encrypted
configuration. -/
theorem passphrase_only_on_stdin_witness :
    create_pool_cmd { cfg_enc with encryption_passphrase := "otherpass" }
        ["/dev/sda2"] =
      create_pool_cmd cfg_enc ["/dev/sda2"] ∧
    (import_pool_call cfg_enc true).stdin_input =
      some ("hunter2hunter2" ++ "\n") ∧
    ∀ c ∈ create_pool_call cfg_enc ["/dev/sda2"],
      c.stdin_input = some ("hunter2hunter2" ++ "\n") := by
  refine ⟨(passphrase_only_on_stdin cfg_enc "otherpass" ["/dev/sda2"] true).1,
    ?_, ?_⟩
  · exact (passphrase_only_on_stdin cfg_enc "otherpass" ["/dev/sda2"] true).2.2.1 rfl
  · exact (passphrase_only_on_stdin cfg_enc "otherpass" ["/dev/sda2"] true).2.2.2 rfl

/-- C4: the claim says teardown unmounts each dataset exactly once in the
exact reverse of the mount order (var/cache, var/log, var, home, root).  The
source's `datasets` list (installer.py 304-311) lists `var/cache` twice —
contradicting the comment directly above it, "Unmount in reverse order of
mounting" — so the issued sequence is not the reverse of the mount sequence
and `var/cache` receives two unmount commands. -/
theorem unmount_targets_duplicate_cache :
    unmount_dataset_targets "rpool" "rpool/ROOT/arch" =
      ["rpool/var/cache", "rpool/var/log", "rpool/var/cache", "rpool/var",
       "rpool/home", "rpool/ROOT/arch"] ∧
    unmount_dataset_targets "rpool" "rpool/ROOT/arch" ≠
      (mount_dataset_order "rpool" "rpool/ROOT/arch").reverse ∧
    (unmount_dataset_targets "rpool" "rpool/ROOT/arch").count
      "rpool/var/cache" = 2 := by
  refine ⟨rfl, ?_, ?_⟩ <;> decide

/-- C5 counterexample: with topology "mirror" and the nonempty partition list
["/dev/sda2"], `create_pool` takes the single-device branch (the length-one
test precedes the topology tests), so the command does not contain the
keyword "mirror" at all, contradicting the claim's universal quantification
over nonempty lists. -/
theorem mirror_singleton_no_keyword :
    create_pool_cmd cfg_mirror ["/dev/sda2"] =
      some (create_pool_opts cfg_mirror ++ ["/dev/sda2"]) ∧
    "mirror" ∉ create_pool_opts cfg_mirror ++ ["/dev/sda2"] := by
  refine ⟨?_, ?_⟩ <;> decide

/-- C5 amended: a one-element partition list always yields the single-device
tail; for lists with at least two partitions the command ends with the
keyword "mirror" followed by all devices in order (topology mirror), the
raidz keyword followed by all devices (topology raidz1 or raidz2), or the
first device only (topology single); in particular mirror with
/dev/sda2, /dev/sdb2 yields the contiguous tail mirror /dev/sda2 /dev/sdb2. -/
theorem create_pool_topology_tail (m : ZFSConfig) (parts : List String) :
    (∀ p, create_pool_cmd m [p] = some (create_pool_opts m ++ [p])) ∧
    (2 ≤ parts.length →
      (m.pool_type = "mirror" →
        create_pool_cmd m parts =
          some (create_pool_opts m ++ "mirror" :: parts)) ∧
      ((m.pool_type = "raidz1" ∨ m.pool_type = "raidz2") →
        create_pool_cmd m parts =
          some (create_pool_opts m ++ m.pool_type :: parts)) ∧
      (m.pool_type = "single" → ∀ p rest, parts = p :: rest →
        create_pool_cmd m parts = some (create_pool_opts m ++ [p]))) ∧
    create_pool_cmd cfg_mirror ["/dev/sda2", "/dev/sdb2"] =
      some (create_pool_opts cfg_mirror ++ ["mirror", "/dev/sda2", "/dev/sdb2"]) := by
  refine ⟨?_, ?_, by decide⟩
  · intro p
    simp [create_pool_cmd, create_pool_vdevs]
  · intro hlen
    have h1 : parts.length ≠ 1 := by omega
    refine ⟨?_, ?_, ?_⟩
    · intro ht
      simp [create_pool_cmd, create_pool_vdevs, ht, h1]
    · intro ht
      have hsw : starts_with m.pool_type "raidz" = true := by
        rcases ht with h | h <;> rw [h] <;> decide
      rcases ht with h | h <;>
        simp [create_pool_cmd, create_pool_vdevs, h, h1, hsw, starts_with]
    · intro ht p rest hpr
      subst hpr
      simp [create_pool_cmd, create_pool_vdevs, ht]

/-- C5 witness: the amended theorem applied at the two-device mirror and at a
singleton list. -/
theorem create_pool_topology_tail_witness :
    create_pool_cmd cfg_mirror ["/dev/sda2", "/dev/sdb2"] =
      some (create_pool_opts cfg_mirror ++ "mirror" :: ["/dev/sda2", "/dev/sdb2"]) ∧
    create_pool_cmd cfg_mirror ["/dev/sdc3"] =
      some (create_pool_opts cfg_mirror ++ ["/dev/sdc3"]) :=
  ⟨((create_pool_topology_tail cfg_mirror ["/dev/sda2", "/dev/sdb2"]).2.1
      (by decide)).1 rfl,
   (create_pool_topology_tail cfg_mirror ["/dev/sdc3"]).1 "/dev/sdc3"⟩

/-- C8 counterexample: the claim says a failure of one unmount command never
prevents the remaining targets from being attempted.  With a separate boot
partition mounted and a failing EFI unmount, `unmount_boot` catches the
exception after the first command and returns, so the separate boot
partition's unmount is never attempted. -/
theorem efi_failure_skips_boot_unmount :
    unmount_filesystems_attempts "/mnt" "rpool" "rpool/ROOT/arch" true false
        fail_efi =
      [["umount", "/mnt/boot/efi"],
       ["zfs", "unmount", "rpool/var/cache"],
       ["zfs", "unmount", "rpool/var/log"],
       ["zfs", "unmount", "rpool/var/cache"],
       ["zfs", "unmount", "rpool/var"],
       ["zfs", "unmount", "rpool/home"],
       ["zfs", "unmount", "rpool/ROOT/arch"]] ∧
    ["umount", "/mnt/boot"] ∉
      unmount_filesystems_attempts "/mnt" "rpool" "rpool/ROOT/arch" true false
        fail_efi := by
  refine ⟨?_, ?_⟩ <;> decide

/-- C8 amended: every dataset unmount is always attempted regardless of any
failures (the dataset commands run with check=False), the EFI unmount is
always attempted, and when the EFI unmount succeeds the separate boot
partition's unmount is attempted; but when the EFI unmount fails, the boot
stage attempts nothing further, skipping the separate boot partition. -/
theorem unmount_best_effort (root pool rds : String) (sep exp : Bool)
    (fails : List String → Bool) :
    (∀ d ∈ unmount_dataset_targets pool rds,
      ["zfs", "unmount", d] ∈
        unmount_filesystems_attempts root pool rds sep exp fails) ∧
    ["umount", root ++ "/boot/efi"] ∈ unmount_boot_attempts root sep fails ∧
    (fails ["umount", root ++ "/boot/efi"] = false → sep = true →
      ["umount", root ++ "/boot"] ∈
        unmount_filesystems_attempts root pool rds sep exp fails) ∧
    (fails ["umount", root ++ "/boot/efi"] = true →
      unmount_boot_attempts root sep fails = [["umount", root ++ "/boot/efi"]]) := by
  refine ⟨?_, ?_, ?_, ?_⟩
  · intro d hd
    simp only [unmount_filesystems_attempts, List.mem_append]
    exact Or.inl (Or.inr (List.mem_map_of_mem _ hd))
  · by_cases h : fails ["umount", root ++ "/boot/efi"] <;>
      simp [unmount_boot_attempts, h]
  · intro h hsep
    simp only [unmount_filesystems_attempts, List.mem_append]
    exact Or.inl (Or.inl (by simp [unmount_boot_attempts, h, hsep]))
  · intro h
    simp [unmount_boot_attempts, h]

/-- C8 witness: the amended theorem applied with a concrete layout, once
under an all-succeeding oracle and once under a failing EFI unmount. -/
theorem unmount_best_effort_witness :
    (∀ d ∈ unmount_dataset_targets "rpool" "rpool/ROOT/arch",
      ["zfs", "unmount", d] ∈
        unmount_filesystems_attempts "/mnt" "rpool" "rpool/ROOT/arch" true false
          (fun _ => false)) ∧
    ["umount", "/mnt/boot"] ∈
      unmount_filesystems_attempts "/mnt" "rpool" "rpool/ROOT/arch" true false
        (fun _ => false) ∧
    unmount_boot_attempts "/mnt" true fail_efi = [["umount", "/mnt/boot/efi"]] := by
  refine ⟨(unmount_best_effort "/mnt" "rpool" "rpool/ROOT/arch" true false
      (fun _ => false)).1, ?_, ?_⟩
  · exact (unmount_best_effort "/mnt" "rpool" "rpool/ROOT/arch" true false
      (fun _ => false)).2.2.1 rfl rfl
  · exact (unmount_best_effort "/mnt" "rpool" "rpool/ROOT/arch" true false
      fail_efi).2.2.2 (by decide)

theorem mem_list_insert_self (a : String) :
    ∀ (n : Nat) (l : List String), a ∈ list_insert a n l := by
  intro n l
  induction l generalizing n with
  | nil => cases n <;> simp [list_insert]
  | cons h t ih =>
    cases n with
    | zero => simp [list_insert]
    | succ m => simp [list_insert]; exact Or.inr (ih m)

theorem mem_list_insert_of_mem (a x : String) :
    ∀ (n : Nat) (l : List String), x ∈ l → x ∈ list_insert a n l := by
  intro n l
  induction l generalizing n with
  | nil => simp
  | cons h t ih =>
    intro hx
    cases n with
    | zero =>
      simp only [list_insert]
      exact List.mem_cons_of_mem _ hx
    | succ m =>
      simp [list_insert]
      rcases List.mem_cons.mp hx with h1 | h1
      · exact Or.inl h1
      · exact Or.inr (ih m h1)

theorem list_index_append_of_mem (x : String) :
    ∀ (l t : List String), x ∈ l → list_index x (l ++ t) = list_index x l := by
  intro l t
  induction l with
  | nil => simp
  | cons h l' ih =>
    intro hx
    by_cases hh : h = x
    · simp [list_index, hh]
    · have hx' : x ∈ l' := by
        rcases List.mem_cons.mp hx with h1 | h1
        · exact absurd h1.symm hh
        · exact h1
      simp [list_index, hh, ih hx']

theorem index_insert_lt (a b : String) (hab : a ≠ b) :
    ∀ l : List String, b ∈ l → a ∉ l →
      list_index a (list_insert a (list_index b l) l) <
        list_index b (list_insert a (list_index b l) l) := by
  intro l
  induction l with
  | nil => simp
  | cons h t ih =>
    intro hb ha
    have ha1 : ¬ h = a := fun hh => ha (by simp [hh])
    have ha2 : a ∉ t := fun hh => ha (List.mem_cons_of_mem _ hh)
    by_cases hhb : h = b
    · subst hhb
      simp [list_index, list_insert, hab]
    · have hb' : b ∈ t := by
        rcases List.mem_cons.mp hb with h1 | h1
        · exact absurd h1.symm hhb
        · exact h1
      have key := ih hb' ha2
      simp [list_index, list_insert, hhb, ha1]
      omega

theorem mem_add_if_missing_self (l : List String) (b : String) :
    b ∈ add_if_missing l b := by
  by_cases h : b ∈ l <;> simp [add_if_missing, h]

theorem mem_add_if_missing_of_mem (l : List String) (b x : String)
    (hx : x ∈ l) : x ∈ add_if_missing l b := by
  by_cases h : b ∈ l <;> simp [add_if_missing, h, hx]

theorem add_if_missing_of_mem (l : List String) (b : String) (h : b ∈ l) :
    add_if_missing l b = l := by
  simp [add_if_missing, h]

theorem mem_of_mem_add_if_missing (l : List String) (b x : String)
    (hx : x ∈ add_if_missing l b) : x ∈ l ∨ x = b := by
  by_cases h : b ∈ l
  · simp [add_if_missing, h] at hx
    exact Or.inl hx
  · simp [add_if_missing, h] at hx
    exact hx

theorem list_index_add_if_missing (l : List String) (b x : String)
    (hx : x ∈ l) : list_index x (add_if_missing l b) = list_index x l := by
  by_cases h : b ∈ l
  · simp [add_if_missing, h]
  · simp [add_if_missing, h, list_index_append_of_mem x l [b] hx]

theorem ensure_extra_hooks_eq (bl : String) (l : List String) :
    ensure_extra_hooks bl l =
      if bl = "systemd-boot" then
        add_if_missing (add_if_missing l "sd-vconsole") "sd-encrypt"
      else l := by
  have s1 : starts_with "keyboard" "sd-" = false := by decide
  have s2 : starts_with "keymap" "sd-" = false := by decide
  have s3 : starts_with "encrypt" "sd-" = false := by decide
  have s4 : starts_with "sd-vconsole" "sd-" = true := by decide
  have s5 : starts_with "sd-encrypt" "sd-" = true := by decide
  by_cases h : bl = "systemd-boot" <;>
    simp [ensure_extra_hooks, h, s1, s2, s3, s4, s5]

theorem mem_ensure_of_mem (bl : String) (l : List String) (x : String)
    (hx : x ∈ l) : x ∈ ensure_extra_hooks bl l := by
  rw [ensure_extra_hooks_eq]
  by_cases h : bl = "systemd-boot"
  · simp only [h, if_pos]
    exact mem_add_if_missing_of_mem _ _ _ (mem_add_if_missing_of_mem _ _ _ hx)
  · simp [h, hx]

theorem ensure_extra_hooks_idem (bl : String) (l : List String) :
    ensure_extra_hooks bl (ensure_extra_hooks bl l) = ensure_extra_hooks bl l := by
  rw [ensure_extra_hooks_eq, ensure_extra_hooks_eq]
  by_cases h : bl = "systemd-boot"
  · simp only [h, if_pos]
    have hv : "sd-vconsole" ∈ add_if_missing (add_if_missing l "sd-vconsole") "sd-encrypt" :=
      mem_add_if_missing_of_mem _ _ _ (mem_add_if_missing_self _ _)
    have he : "sd-encrypt" ∈ add_if_missing (add_if_missing l "sd-vconsole") "sd-encrypt" :=
      mem_add_if_missing_self _ _
    rw [add_if_missing_of_mem _ _ hv, add_if_missing_of_mem _ _ he]
  · simp [h]

theorem mem_zfs_add_zfs_hook (l : List String) : "zfs" ∈ add_zfs_hook l := by
  by_cases h1 : "zfs" ∈ l
  · simp [add_zfs_hook, h1]
  · by_cases h2 : "filesystems" ∈ l
    · simp [add_zfs_hook, h1, h2, mem_list_insert_self]
    · simp [add_zfs_hook, h1, h2]

theorem add_zfs_hook_of_mem (l : List String) (h : "zfs" ∈ l) :
    add_zfs_hook l = l := by
  simp [add_zfs_hook, h]

theorem list_index_ensure (bl : String) (l : List String) (x : String)
    (hx : x ∈ l) : list_index x (ensure_extra_hooks bl l) = list_index x l := by
  rw [ensure_extra_hooks_eq]
  by_cases h : bl = "systemd-boot"
  · simp only [h, if_pos]
    rw [list_index_add_if_missing _ _ _ (mem_add_if_missing_of_mem _ _ _ hx),
      list_index_add_if_missing _ _ _ hx]
  · simp [h]

theorem mem_of_mem_ensure (bl : String) (l : List String) (x : String)
    (hx : x ∈ ensure_extra_hooks bl l) (hx1 : x ≠ "sd-vconsole")
    (hx2 : x ≠ "sd-encrypt") : x ∈ l := by
  rw [ensure_extra_hooks_eq] at hx
  by_cases h : bl = "systemd-boot"
  · rw [if_pos h] at hx
    rcases mem_of_mem_add_if_missing _ _ _ hx with h1 | h1
    · rcases mem_of_mem_add_if_missing _ _ _ h1 with h2 | h2
      · exact h2
      · exact absurd h2 hx1
    · exact absurd h1 hx2
  · rwa [if_neg h] at hx

theorem patch_hooks_idem (bl : String) (l : List String) :
    patch_hooks bl (patch_hooks bl l) = patch_hooks bl l := by
  unfold patch_hooks
  rw [add_zfs_hook_of_mem _ (mem_ensure_of_mem bl _ _ (mem_zfs_add_zfs_hook l)),
    ensure_extra_hooks_idem]

theorem zfs_before_filesystems (bl : String) (l : List String)
    (hz : "zfs" ∉ l) (hf : "filesystems" ∈ patch_hooks bl l) :
    list_index "zfs" (patch_hooks bl l) <
      list_index "filesystems" (patch_hooks bl l) := by
  unfold patch_hooks at hf ⊢
  have hfz : "filesystems" ∈ add_zfs_hook l :=
    mem_of_mem_ensure bl _ _ hf (by decide) (by decide)
  have hfl : "filesystems" ∈ l := by
    by_cases h2 : "filesystems" ∈ l
    · exact h2
    · exfalso
      rw [add_zfs_hook] at hfz
      simp [hz, h2] at hfz
  have hzl : add_zfs_hook l =
      list_insert "zfs" (list_index "filesystems" l) l := by
    simp [add_zfs_hook, hz, hfl]
  have hzmem : "zfs" ∈ add_zfs_hook l := mem_zfs_add_zfs_hook l
  rw [list_index_ensure bl _ _ hzmem, list_index_ensure bl _ _ hfz, hzl]
  exact index_insert_lt "zfs" "filesystems" (by decide) l hfl hz

/-- C6 counterexample: the claim says every output list containing the
"filesystems" hook has "zfs" strictly before it; but when the input already
contains "zfs" after "filesystems", the patch leaves the list unchanged. -/
theorem patch_hooks_keeps_late_zfs :
    patch_hooks "grub" ["base", "filesystems", "zfs"] =
      ["base", "filesystems", "zfs"] ∧
    "filesystems" ∈ patch_hooks "grub" ["base", "filesystems", "zfs"] ∧
    ¬ list_index "zfs" (patch_hooks "grub" ["base", "filesystems", "zfs"]) <
        list_index "filesystems"
          (patch_hooks "grub" ["base", "filesystems", "zfs"]) := by
  refine ⟨?_, ?_, ?_⟩ <;> decide

/-- C6 amended: the HOOKS patch is idempotent for every bootloader and input
list; and for every input that does not already contain the "zfs" hook, if
the output contains the "filesystems" hook then "zfs" appears strictly before
it; in particular the hook list of Scenario B becomes
base udev autodetect modconf block zfs filesystems keyboard fsck. -/
theorem patch_hooks_idempotent_order (bl : String) (l : List String) :
    patch_hooks bl (patch_hooks bl l) = patch_hooks bl l ∧
    ("zfs" ∉ l → "filesystems" ∈ patch_hooks bl l →
      list_index "zfs" (patch_hooks bl l) <
        list_index "filesystems" (patch_hooks bl l)) ∧
    patch_hooks "grub"
        ["base", "udev", "autodetect", "modconf", "block", "filesystems",
         "keyboard", "fsck"] =
      ["base", "udev", "autodetect", "modconf", "block", "zfs", "filesystems",
       "keyboard", "fsck"] :=
  ⟨patch_hooks_idem bl l, zfs_before_filesystems bl l, by decide⟩

/-- C6 witness: the amended theorem applied to the Scenario B hook list. -/
theorem patch_hooks_idempotent_order_witness :
    patch_hooks "grub"
        (patch_hooks "grub"
          ["base", "udev", "autodetect", "modconf", "block", "filesystems",
           "keyboard", "fsck"]) =
      patch_hooks "grub"
        ["base", "udev", "autodetect", "modconf", "block", "filesystems",
         "keyboard", "fsck"] ∧
    list_index "zfs"
        (patch_hooks "grub"
          ["base", "udev", "autodetect", "modconf", "block", "filesystems",
           "keyboard", "fsck"]) <
      list_index "filesystems"
        (patch_hooks "grub"
          ["base", "udev", "autodetect", "modconf", "block", "filesystems",
           "keyboard", "fsck"]) :=
  ⟨(patch_hooks_idempotent_order "grub"
      ["base", "udev", "autodetect", "modconf", "block", "filesystems",
       "keyboard", "fsck"]).1,
   (patch_hooks_idempotent_order "grub"
      ["base", "udev", "autodetect", "modconf", "block", "filesystems",
       "keyboard", "fsck"]).2.1 (by decide) (by decide)⟩

end ZFSInstaller
